import Mathlib

/-!
Verification development for the aigate request-dispatch and response-caching
engine (src/core/server.ts, src/core/cache.ts, src/integrations/openai.ts,
src/integrations/azure-openai.ts).

The TypeScript source is embedded shallowly:

* JSON values are modelled by `Jval`; objects keep their fields in insertion
  order, exactly as V8 objects and `JSON.stringify` do.  Numbers are modelled
  as integers (the claims under study never depend on float formatting).
* `JSON.stringify` is modelled by `Jval.stringify`.  String escaping handles
  the quote and backslash characters; the claims only use keys and values
  free of other escapes.
* The express handlers are pure functions from a request plus an environment
  of external collaborators (fetch outcomes, zod parses, cache backend) to an
  `Outcome` recording the responses sent, the attempted cache read, the
  upstream adapter invocation, and the attempted cache write.
* The in-process cache (`MemoryCacher`) is explicit state passed through
  `msGet`/`msSet`, with `Date.now()` an explicit `now : Nat` argument
  (milliseconds).  JavaScript truthiness of `ttl` and `expires` (0 and
  `undefined` are falsy) is modelled explicitly.
-/

namespace Aigate

/-! ## JSON value model -/

/-- JSON values as produced by `express.json()` body parsing.  Object fields
are kept in insertion order (JavaScript object semantics). -/
inductive Jval where
  | jnull : Jval
  | jbool : Bool → Jval
  | jnum : Int → Jval
  | jstr : String → Jval
  | jarr : List Jval → Jval
  | jobj : List (String × Jval) → Jval

/-- Escaping of a string for `JSON.stringify` (quote and backslash). -/
def escapeStr (s : String) : String :=
  String.mk (s.data.foldr
    (fun c acc =>
      if c = '"' then '\\' :: '"' :: acc
      else if c = '\\' then '\\' :: '\\' :: acc
      else c :: acc) [])

mutual

/-- Model of `JSON.stringify` on `Jval`. -/
def Jval.stringify : Jval → String
  | .jnull => "null"
  | .jbool b => if b then "true" else "false"
  | .jnum n => toString n
  | .jstr s => "\"" ++ escapeStr s ++ "\""
  | .jarr xs => "[" ++ Jval.stringifyItems xs ++ "]"
  | .jobj fs => "\x7b" ++ Jval.stringifyFields fs ++ "\x7d"

/-- Comma-separated serialization of array elements. -/
def Jval.stringifyItems : List Jval → String
  | [] => ""
  | [x] => Jval.stringify x
  | x :: y :: rest => Jval.stringify x ++ "," ++ Jval.stringifyItems (y :: rest)

/-- Comma-separated serialization of object fields, in insertion order. -/
def Jval.stringifyFields : List (String × Jval) → String
  | [] => ""
  | [(k, v)] => "\"" ++ escapeStr k ++ "\":" ++ Jval.stringify v
  | (k, v) :: f :: rest =>
      "\"" ++ escapeStr k ++ "\":" ++ Jval.stringify v ++ "," ++
        Jval.stringifyFields (f :: rest)

end

/-! ## Association-list maps (JavaScript `Map` and object-index semantics) -/

/-- Lookup of the first binding of `k` (JavaScript `Map.get` / property read). -/
def mapLookup {α : Type} : List (String × α) → String → Option α
  | [], _ => none
  | (k', v') :: rest, k => if k' = k then some v' else mapLookup rest k

/-- JavaScript `Map.set`: overwrite in place when the key exists (keeping its
insertion position), otherwise append. -/
def mapSet {α : Type} : List (String × α) → String → α → List (String × α)
  | [], k, v => [(k, v)]
  | (k', v') :: rest, k, v =>
      if k' = k then (k, v) :: rest else (k', v') :: mapSet rest k v

/-- JavaScript `Map.delete`: remove the binding of `k`.  `Map` keys are
unique, so removing every binding coincides with removing the one binding. -/
def mapDelete {α : Type} (m : List (String × α)) (k : String) :
    List (String × α) :=
  m.filter (fun kv => kv.1 ≠ k)

/-! ## Field access helpers mirroring the handlers' property reads -/

/-- JavaScript truthiness of a JSON value (`0`, `""`, `false`, `null` are
falsy; objects and arrays are truthy). -/
def jTruthy : Jval → Bool
  | .jnull => false
  | .jbool b => b
  | .jnum n => n != 0
  | .jstr s => s != ""
  | .jarr _ => true
  | .jobj _ => true

/-- Read `d.k` on a parsed body (undefined when `d` is not an object or the
field is missing). -/
def getField (d : Jval) (k : String) : Option Jval :=
  match d with
  | .jobj fs => mapLookup fs k
  | _ => none

/-- Read `d.k` expecting a string (the handlers use `data.provider` and
`data.deploymentId` as strings). -/
def getStr (d : Jval) (k : String) : Option String :=
  match getField d k with
  | some (.jstr s) => some s
  | _ => none

/-- JavaScript `a || b` on optional strings: an empty string is falsy. -/
def orElseTruthy (a b : Option String) : Option String :=
  match a with
  | some s => if s = "" then b else some s
  | none => b

/-- Truthiness test of a body field, as in `if (data.stream)`. -/
def fieldTruthy (d : Jval) (k : String) : Bool :=
  match getField d k with
  | some v => jTruthy v
  | none => false

/-! ## Cache fingerprints (src/core/server.ts)

The chat/completion handlers key the cache by
`JSON.stringify({ provider, data })` where `provider` is the resolved provider
name string and `data` is the request body (insertion order preserved, no
canonicalization).  The transcription handler keys by
`JSON.stringify({ provider, data, fileHash })` where `fileHash` is the raw
`ArrayBuffer` returned by `crypto.subtle.digest("SHA-256", file.buffer)`. -/

/-- Cache key of the `/chat/completion` and `/completion` handlers:
`JSON.stringify({ provider, data })`. -/
def chatCacheKey (provider : String) (data : Jval) : String :=
  Jval.stringify (.jobj [("provider", .jstr provider), ("data", data)])

/-- `JSON.stringify` of an `ArrayBuffer`: an `ArrayBuffer` has no enumerable
own properties, so it serializes as the empty object, whatever its bytes. -/
def jsonOfArrayBuffer (_bytes : List Nat) : Jval := .jobj []

/-- Cache key of the `/audio/transcriptions` handler:
`JSON.stringify({ provider, data, fileHash })` with `fileHash` the
`ArrayBuffer` digest of the uploaded file's bytes (`digest` abstracts
SHA-256). -/
def transcriptionCacheKey (digest : List Nat → List Nat) (provider : String)
    (data : Jval) (fileBytes : List Nat) : String :=
  Jval.stringify (.jobj
    [("provider", .jstr provider), ("data", data),
     ("fileHash", jsonOfArrayBuffer (digest fileBytes))])

/-! ## In-process cache store (src/core/cache.ts, `MemoryCacher`) -/

/-- One stored entry: `{ value, expires? }` with `expires` a millisecond
timestamp. -/
structure MemEntry where
  value : String
  expires : Option Nat
deriving Repr, DecidableEq

/-- The `MemoryCacher`: a configured ttl (seconds, possibly absent) and the
backing `Map`. -/
structure MemoryCacher where
  ttl : Option Nat
  cache : List (String × MemEntry)
deriving Repr, DecidableEq

/-- JavaScript truthiness of an optional number (`undefined` and `0` falsy). -/
def truthyNum : Option Nat → Bool
  | none => false
  | some n => n != 0

/-- The guard `value.expires && Date.now() > value.expires` of
`MemoryCacher.get`. -/
def expiredCheck (expires : Option Nat) (now : Nat) : Bool :=
  match expires with
  | none => false
  | some ex => (ex != 0) && (now > ex)

/-- `MemoryCacher.set`: store the value, attaching
`expires = Date.now() + ttl * 1000` only when `this.ttl` is truthy. -/
def msSet (c : MemoryCacher) (now : Nat) (k v : String) : MemoryCacher :=
  { c with
    cache := mapSet c.cache k
      { value := v
        expires := if truthyNum c.ttl then some (now + c.ttl.getD 0 * 1000)
                   else none } }

/-- `MemoryCacher.get`: absent keys yield `null`; an entry past its expiry is
deleted and yields `null`; otherwise the stored value is returned and the
store is untouched. -/
def msGet (c : MemoryCacher) (now : Nat) (k : String) :
    Option String × MemoryCacher :=
  match mapLookup c.cache k with
  | none => (none, c)
  | some e =>
      if expiredCheck e.expires now then
        (none, { c with cache := mapDelete c.cache k })
      else
        (some e.value, c)

/-- Whether the entry currently stored at `k` (if any) is expired at `now`. -/
def msExpiredAt (c : MemoryCacher) (now : Nat) (k : String) : Bool :=
  match mapLookup c.cache k with
  | none => false
  | some e => expiredCheck e.expires now

/-! ## Provider configuration (src/main.ts `ConfigSchema`) -/

/-- The `type` enum of a configured provider. -/
inductive ProviderType where
  | openai
  | azureOpenAI
  | anthropic
  | replicate
  | cohere
deriving Repr, DecidableEq

/-- One configured provider: `type`, `api_key`, optional `url`. -/
structure ProviderConf where
  type : ProviderType
  api_key : String
  url : Option String
deriving Repr, DecidableEq

/-- The slice of the loaded configuration the handlers consult: the provider
table and whether `config.cache?.enabled` caused a cacher to be constructed. -/
structure Config where
  providers : List (String × ProviderConf)
  cacheEnabled : Bool
deriving Repr, DecidableEq

/-! ## Provider adapters (src/integrations) -/

/-- Outcome of a resolved `fetch`: the HTTP status and the result of
`resp.json()` (`.error` when the body is not JSON). -/
structure HttpResp where
  status : Nat
  jsonBody : Except String Jval

/-- JavaScript `Response.ok`: status in the range 200–299. -/
def HttpResp.respOk (r : HttpResp) : Bool :=
  decide (200 ≤ r.status ∧ r.status < 300)

/-- src/integrations/openai.ts `chatCompletion` (non-stream branch): fetch the
chat completions endpoint and return `resp.json()`.  The HTTP status is never
inspected; a rejected fetch or a non-JSON body throws. -/
def oaiChatCompletion (fetchResult : Except String HttpResp) :
    Except String Jval :=
  match fetchResult with
  | .error e => .error e
  | .ok r => r.jsonBody

/-- URL built by src/integrations/azure-openai.ts `chatCompletion`; a missing
`deploymentId` interpolates as the literal string `undefined`. -/
def azureChatUrl (url : String) (dep : Option String) : String :=
  url ++ "/openai/deployments/" ++ dep.getD "undefined" ++
    "/chat/completions?api-version=2023-08-01-preview"

/-- src/integrations/azure-openai.ts `chatCompletion` (non-stream): fetch the
deployment URL and return `resp.json()`; the status is never inspected. -/
def azoaiChatCompletion (fetchResult : Except String HttpResp) :
    Except String Jval :=
  match fetchResult with
  | .error e => .error e
  | .ok r => r.jsonBody

/-- URL built by src/integrations/azure-openai.ts `embeddings`. -/
def azureEmbeddingsUrl (url : String) (dep : Option String) : String :=
  url ++ "/openai/deployments/" ++ dep.getD "undefined" ++
    "/embeddings?api-version=2023-08-01-preview"

/-- src/integrations/azure-openai.ts `embeddings`: fetch the deployment URL
and return `resp.json()`; the status is never inspected. -/
def azoaiEmbeddings (fetchResult : Except String HttpResp) :
    Except String Jval :=
  match fetchResult with
  | .error e => .error e
  | .ok r => r.jsonBody

/-! ## The dispatcher (src/core/server.ts `startServer`)

External collaborators are supplied as an environment: the cache backend's
`get` (which may throw), the zod schema parses (which may throw; the schema
internals live in the zod library, not in this repository), and the outcome
each `fetch` would have.  The cache `set` is fire-and-forget in the source
(never awaited, issued after the response is sent), so only the attempted
write is recorded, never a write failure. -/

/-- External collaborators of one request.  `jsonParse` is the `JSON.parse`
primitive of the runtime, supplied like the other collaborators: `some j`
when the string parses as JSON `j`, `none` when `JSON.parse` throws a
`SyntaxError` (as it does on typical error messages such as
`redis down` or `Connection refused`). -/
structure Env where
  cacheGet : String → Except String (Option String)
  parseChatOpenAI : Jval → Except String Jval
  parseChatAzure : Jval → Except String Jval
  parseEmbeddingsAzure : Jval → Except String Jval
  oaiFetch : Jval → Except String HttpResp
  azureFetch : String → Jval → Except String HttpResp
  jsonParse : String → Option Jval

/-- A response written by a handler. -/
inductive Resp where
  | okJson : Jval → Resp
  | hitJson : String → Resp
  | err : Nat → String → Resp

/-- Whether a response carried `X-Cache-Status: HIT`. -/
def Resp.isHit : Resp → Bool
  | .hitJson _ => true
  | _ => false

/-- Record of the one upstream adapter invocation a handler may make:
which adapter, the deploymentId and URL where applicable, and its result. -/
inductive UpstreamCall where
  | openaiChat : Except String Jval → UpstreamCall
  | azureChat : Option String → String → Except String Jval → UpstreamCall
  | azureEmbeddings : Option String → String → Except String Jval →
      UpstreamCall

/-- Everything observable about one handler run. -/
structure Outcome where
  responses : List Resp
  cacheRead : Option String := none
  upstream : Option UpstreamCall := none
  cacheWrite : Option (String × String) := none

/-- The catch blocks of `/chat/completion` and `/embeddings` build their 500
envelope as `res.status(500).json(\x7b error, message: JSON.parse(e.message),
source \x7d)`: the `JSON.parse` runs while the argument is constructed, so
when the thrown error's message is not valid JSON the catch itself throws and
no response is sent at all.  When the message does parse, the envelope is
sent; it is recorded as `.err 500 e`, carrying the raw message whose parse is
the envelope's `message` field. -/
def catchResponses (env : Env) (e : String) : List Resp :=
  match env.jsonParse e with
  | some _ => [.err 500 e]
  | none => []

/-- Resolution of `data.provider || req.header("X-Provider")` followed by the
`config.providers[provider]` table lookup. -/
def resolveProvider (cfg : Config) (data : Jval) (hdrProvider : Option String) :
    Option (String × ProviderConf) :=
  match orElseTruthy (getStr data "provider") hdrProvider with
  | none => none
  | some p =>
      match mapLookup cfg.providers p with
      | none => none
      | some pc => some (p, pc)

/-- An inbound `/chat/completion` request: the parsed JSON body and the
headers the handler reads. -/
structure ChatReq where
  data : Jval
  headerProvider : Option String
  headerDeployment : Option String
  noCacheHeader : Bool

/-- The provider-type branch of the `/chat/completion` handler: validate the
body with zod, invoke the adapter, send the response, then issue the
best-effort cache write.  A thrown parse or adapter error reaches the
`catch`, whose own `JSON.parse(e.message)` decides whether an envelope is
sent (see `catchResponses`); the streaming branches and non-OpenAI/Azure
provider types fall through without sending any response. -/
def chatDispatch (cfg : Config) (env : Env) (req : ChatReq) (_provider : String)
    (pc : ProviderConf) (key : String) (cacheRead : Option String) : Outcome :=
  match pc.type with
  | .openai =>
      if fieldTruthy req.data "stream" then
        { responses := [], cacheRead := cacheRead }
      else
        match env.parseChatOpenAI req.data with
        | .error e =>
            { responses := catchResponses env e, cacheRead := cacheRead }
        | .ok args =>
            match oaiChatCompletion (env.oaiFetch args) with
            | .error e =>
                { responses := catchResponses env e, cacheRead := cacheRead,
                  upstream := some (.openaiChat (.error e)) }
            | .ok resp =>
                { responses := [.okJson resp], cacheRead := cacheRead,
                  upstream := some (.openaiChat (.ok resp)),
                  cacheWrite :=
                    if cfg.cacheEnabled then some (key, Jval.stringify resp)
                    else none }
  | .azureOpenAI =>
      let dep := orElseTruthy req.headerDeployment
        (getStr req.data "deploymentId")
      let url := azureChatUrl (pc.url.getD "undefined") dep
      if fieldTruthy req.data "stream" then
        { responses := [], cacheRead := cacheRead }
      else
        match env.parseChatAzure req.data with
        | .error e =>
            { responses := catchResponses env e, cacheRead := cacheRead }
        | .ok args =>
            match azoaiChatCompletion (env.azureFetch url args) with
            | .error e =>
                { responses := catchResponses env e, cacheRead := cacheRead,
                  upstream := some (.azureChat dep url (.error e)) }
            | .ok resp =>
                { responses := [.okJson resp], cacheRead := cacheRead,
                  upstream := some (.azureChat dep url (.ok resp)),
                  cacheWrite :=
                    if cfg.cacheEnabled then some (key, Jval.stringify resp)
                    else none }
  | _ => { responses := [], cacheRead := cacheRead }

/-- The `/chat/completion` handler: provider resolution, the guarded cache
lookup (`cacher` present and no `Cache-Control: no-cache`), then dispatch.  A
cached value is served only when truthy (non-empty) and when
`JSON.parse(cached)` succeeds — when that parse throws, the catch then fails
to `JSON.parse` the SyntaxError's message (such messages are never valid
JSON) and no response is sent.  A thrown `cacher.get` reaches the `catch`,
whose `JSON.parse(e.message)` decides whether the 500 envelope is sent. -/
def chatCompletionHandler (cfg : Config) (env : Env) (req : ChatReq) :
    Outcome :=
  match resolveProvider cfg req.data req.headerProvider with
  | none => { responses := [.err 400 "Invalid provider."] }
  | some (provider, pc) =>
      let key := chatCacheKey provider req.data
      if cfg.cacheEnabled && !req.noCacheHeader then
        match env.cacheGet key with
        | .error e =>
            { responses := catchResponses env e, cacheRead := some key }
        | .ok (some cached) =>
            if cached = "" then
              chatDispatch cfg env req provider pc key (some key)
            else
              match env.jsonParse cached with
              | some _ =>
                  { responses := [.hitJson cached], cacheRead := some key }
              | none => { responses := [], cacheRead := some key }
        | .ok none => chatDispatch cfg env req provider pc key (some key)
      else chatDispatch cfg env req provider pc key none

/-- An inbound `/embeddings` request. -/
structure EmbReq where
  data : Jval
  headerProvider : Option String
  headerDeployment : Option String

/-- The `/embeddings` handler: no cache interaction at all; the OpenAI branch
is a bare `return` that sends no response; the Azure branch validates, calls
the adapter and sends its JSON.  Thrown errors reach a catch of the same
`JSON.parse(_e.message)` shape as `/chat/completion`. -/
def embeddingsHandler (cfg : Config) (env : Env) (req : EmbReq) : Outcome :=
  match resolveProvider cfg req.data req.headerProvider with
  | none => { responses := [.err 400 "Invalid provider."] }
  | some (_, pc) =>
      match pc.type with
      | .openai => { responses := [] }
      | .azureOpenAI =>
          let dep := orElseTruthy req.headerDeployment
            (getStr req.data "deploymentId")
          let url := azureEmbeddingsUrl (pc.url.getD "undefined") dep
          match env.parseEmbeddingsAzure req.data with
          | .error e => { responses := catchResponses env e }
          | .ok args =>
              match azoaiEmbeddings (env.azureFetch url args) with
              | .error e =>
                  { responses := catchResponses env e,
                    upstream := some (.azureEmbeddings dep url (.error e)) }
              | .ok resp =>
                  { responses := [.okJson resp],
                    upstream := some (.azureEmbeddings dep url (.ok resp)) }
      | _ => { responses := [] }

/-! ## Equality of JSON values as key/value maps -/

mutual

/-- Structural equality of JSON values. -/
def jvalBeq : Jval → Jval → Bool
  | .jnull, .jnull => true
  | .jbool a, .jbool b => a == b
  | .jnum a, .jnum b => a == b
  | .jstr a, .jstr b => a == b
  | .jarr xs, .jarr ys => jvalListBeq xs ys
  | .jobj fs, .jobj gs => jvalFieldsBeq fs gs
  | _, _ => false

/-- Elementwise equality of JSON arrays. -/
def jvalListBeq : List Jval → List Jval → Bool
  | [], [] => true
  | x :: xs, y :: ys => jvalBeq x y && jvalListBeq xs ys
  | _, _ => false

/-- Positionwise equality of object field lists. -/
def jvalFieldsBeq : List (String × Jval) → List (String × Jval) → Bool
  | [], [] => true
  | (k, v) :: fs, (k', v') :: gs =>
      (k == k') && jvalBeq v v' && jvalFieldsBeq fs gs
  | _, _ => false

end

/-- Two field lists are equal as key/value maps: each binds every key the
other binds, to an equal value (field order is irrelevant). -/
def fieldsEquivAsMap (f₁ f₂ : List (String × Jval)) : Bool :=
  f₁.all (fun kv =>
    match mapLookup f₂ kv.1 with
    | some v => jvalBeq kv.2 v
    | none => false) &&
  f₂.all (fun kv =>
    match mapLookup f₁ kv.1 with
    | some v => jvalBeq kv.2 v
    | none => false)

/-! ## Upstream-call projections -/

/-- Project a successful adapter result out of a recorded upstream call. -/
def upstreamOk : Option UpstreamCall → Option Jval
  | some (.openaiChat (.ok r)) => some r
  | some (.azureChat _ _ (.ok r)) => some r
  | some (.azureEmbeddings _ _ (.ok r)) => some r
  | _ => none

/-- The zod parse the chat handler would run for a provider of this type. -/
def parsedArgs (env : Env) (pc : ProviderConf) (d : Jval) : Option Jval :=
  match pc.type with
  | .openai => (env.parseChatOpenAI d).toOption
  | .azureOpenAI => (env.parseChatAzure d).toOption
  | _ => none


/-! ## Concrete fixtures for witnesses and counterexamples -/

/-- An OpenAI-type provider entry. -/
def pcP : ProviderConf := { type := .openai, api_key := "k", url := none }

/-- An Azure-type provider entry. -/
def pcAz : ProviderConf :=
  { type := .azureOpenAI, api_key := "k",
    url := some "https://example.azure.com" }

/-- A configuration with one OpenAI provider `p` and caching enabled. -/
def cfgOpenai : Config := { providers := [("p", pcP)], cacheEnabled := true }

/-- A configuration with one Azure provider `az` and caching enabled. -/
def cfgAzure : Config := { providers := [("az", pcAz)], cacheEnabled := true }

/-- A configuration with no providers. -/
def cfgNoProviders : Config := { providers := [], cacheEnabled := true }

/-- A benign environment: empty cache, identity zod parses, a 200 upstream
answering with the JSON string `"ok"`. -/
def envBase : Env :=
  { cacheGet := fun _ => .ok none
    parseChatOpenAI := fun d => .ok d
    parseChatAzure := fun d => .ok d
    parseEmbeddingsAzure := fun d => .ok d
    oaiFetch := fun _ => .ok { status := 200, jsonBody := .ok (.jstr "ok") }
    azureFetch := fun _ _ =>
      .ok { status := 200, jsonBody := .ok (.jstr "ok") }
    jsonParse := fun _ => none }

/-- The JSON error envelope an overloaded upstream would return. -/
def errBody : Jval :=
  .jobj [("error", .jobj [("message", .jstr "upstream failed")])]

/-- Environment whose OpenAI upstream answers HTTP 500 with a JSON error
body. -/
def envUpstream500 : Env :=
  { envBase with
    oaiFetch := fun _ => .ok ⟨500, .ok errBody⟩ }

/-- Environment whose cache backend `get` rejects. -/
def envGetThrows : Env :=
  { envBase with cacheGet := fun _ => .error "redis down" }

/-- A chat request naming provider `p`, no special headers. -/
def reqChatP : ChatReq :=
  { data := .jobj [("provider", .jstr "p"), ("model", .jstr "gpt-x")]
    headerProvider := none
    headerDeployment := none
    noCacheHeader := false }

/-- The same chat request with `Cache-Control: no-cache`. -/
def reqChatPNoCache : ChatReq := { reqChatP with noCacheHeader := true }

/-- A chat request naming an unconfigured provider. -/
def reqUnknown : ChatReq :=
  { data := .jobj [("provider", .jstr "nope")]
    headerProvider := none
    headerDeployment := none
    noCacheHeader := false }

/-- A chat request to the Azure provider with no deployment id anywhere. -/
def reqChatAz : ChatReq :=
  { data := .jobj [("provider", .jstr "az"), ("messages", .jarr [])]
    headerProvider := none
    headerDeployment := none
    noCacheHeader := false }

/-- An embeddings request naming provider `p`. -/
def reqEmb : EmbReq :=
  { data := .jobj [("provider", .jstr "p"), ("input", .jstr "hi")]
    headerProvider := none
    headerDeployment := none }

/-! ## Helper lemmas on association-list maps -/

theorem mapSet_lookup_self {α : Type} (m : List (String × α)) (k : String)
    (v : α) : mapLookup (mapSet m k v) k = some v := by
  induction m with
  | nil => simp [mapSet, mapLookup]
  | cons kv rest ih =>
      obtain ⟨k', v'⟩ := kv
      by_cases h : k' = k
      · subst h; simp [mapSet, mapLookup]
      · simp [mapSet, mapLookup, h, ih]

theorem mapDelete_lookup {α : Type} (m : List (String × α)) (k k' : String) :
    mapLookup (mapDelete m k) k' =
      (if k' = k then none else mapLookup m k') := by
  induction m with
  | nil => simp [mapDelete, mapLookup]
  | cons kv rest ih =>
      obtain ⟨k₀, v₀⟩ := kv
      by_cases hk : k₀ = k
      · subst hk
        by_cases hk' : k' = k₀
        · subst hk'
          simpa [mapDelete, mapLookup] using ih
        · simp [mapDelete, mapLookup, hk', Ne.symm hk'] at ih ⊢
          simpa [mapDelete] using ih
      · by_cases hk' : k₀ = k'
        · subst hk'
          simp [mapDelete, mapLookup, hk, Ne.symm hk]
        · simp [mapDelete, mapLookup, hk, hk'] at ih ⊢
          exact ih

/-! ## Claims about the in-process cache store -/

/-- C5: For the in-process cache store, after `set` at time `t0` with a
configured TTL of `T` seconds (nonzero), `get` at time `t` returns the value
for every `t` up to `T` seconds after the set and returns absent strictly
after; an expired entry behaves as absent on `get`; when the TTL is absent or
zero the entry never expires. -/
theorem C5_memory_ttl_expiry (c : MemoryCacher) (t0 t : Nat) (k v : String) :
    (msGet (msSet c t0 k v) t k).1 =
      (match c.ttl with
       | none => some v
       | some T =>
           if T = 0 then some v
           else if t ≤ t0 + T * 1000 then some v else none) := by
  unfold msSet msGet
  rw [mapSet_lookup_self]
  cases hT : c.ttl with
  | none => simp [truthyNum, expiredCheck]
  | some T =>
      by_cases h0 : T = 0
      · subst h0; simp [truthyNum, expiredCheck]
      · have hx : t0 + T * 1000 ≠ 0 := by
          intro h; omega
        simp only [truthyNum, Option.getD, h0, expiredCheck]
        by_cases ht : t ≤ t0 + T * 1000
        · have : ¬ t > t0 + T * 1000 := by omega
          simp [h0, hx, this, ht]
        · have : t > t0 + T * 1000 := by omega
          simp [h0, hx, this, ht]

/-- C10: `MemoryCacher.get` deletes the entry it read exactly when that entry
is expired, leaves the store untouched for a live or absent key, and never
changes the binding of any key other than the one read. -/
theorem C10_memory_get_frame (c : MemoryCacher) (now : Nat) (k k' : String) :
    (msGet c now k).2 =
      { c with cache := if msExpiredAt c now k then mapDelete c.cache k
                        else c.cache } ∧
    mapLookup (msGet c now k).2.cache k' =
      (if k' = k ∧ msExpiredAt c now k then none else mapLookup c.cache k') := by
  constructor
  · unfold msGet msExpiredAt
    cases h : mapLookup c.cache k with
    | none => simp
    | some e =>
        by_cases hx : expiredCheck e.expires now
        · simp [hx]
        · simp [hx]
  · unfold msGet msExpiredAt
    cases h : mapLookup c.cache k with
    | none =>
        by_cases hk : k' = k
        · subst hk; simp [h]
        · simp [hk]
    | some e =>
        by_cases hx : expiredCheck e.expires now
        · simp only [hx, if_pos]
          rw [mapDelete_lookup]
          by_cases hk : k' = k
          · subst hk; simp [h]
          · simp [hk]
        · by_cases hk : k' = k
          · subst hk; simp [hx, h]
          · simp [hx, hk]

/-! ## String-append cancellation -/

theorem append_middle_cancel (a b x y : String)
    (h : a ++ x ++ b = a ++ y ++ b) : x = y := by
  apply String.ext
  have h2 := congrArg String.data h
  simp only [String.data_append, List.append_assoc] at h2
  exact List.append_cancel_right (List.append_cancel_left h2)

/-! ## Claims about the fingerprint function -/

/-- C2 counterexample: two payloads that are equal as key/value maps but
serialized with different field orders produce different cache keys in the
`/chat/completion` handler. -/
theorem C2_counterexample_field_order_changes_key :
    fieldsEquivAsMap [("a", Jval.jnum 1), ("b", Jval.jnum 2)]
        [("b", Jval.jnum 2), ("a", Jval.jnum 1)] = true ∧
      chatCacheKey "p" (.jobj [("a", Jval.jnum 1), ("b", Jval.jnum 2)]) ≠
        chatCacheKey "p" (.jobj [("b", Jval.jnum 2), ("a", Jval.jnum 1)]) := by
  refine ⟨rfl, ?_⟩
  decide

/-- C2 amended: the fingerprint is the raw `JSON.stringify` of
`\x7b provider, data \x7d` with fields in insertion order, so it is a pure
function of the request (deterministic across repeated calls and process
restarts, no salts or timestamps): two requests to the same provider collide
exactly when their payloads serialize to the same string.  Field order is
part of the serialization, so reordered-but-map-equal payloads get different
keys. -/
theorem C2_amended_fingerprint_is_raw_serialization (p : String)
    (d₁ d₂ : Jval) :
    chatCacheKey p d₁ = chatCacheKey p d₂ ↔
      Jval.stringify d₁ = Jval.stringify d₂ := by
  constructor
  · intro h
    apply String.ext
    have h2 := congrArg String.data h
    simp only [chatCacheKey, Jval.stringify, Jval.stringifyFields,
      String.data_append, List.append_assoc] at h2
    replace h2 := List.append_cancel_left h2
    replace h2 := List.append_cancel_left h2
    replace h2 := List.append_cancel_left h2
    replace h2 := List.append_cancel_left h2
    replace h2 := List.append_cancel_left h2
    replace h2 := List.append_cancel_left h2
    replace h2 := List.append_cancel_left h2
    replace h2 := List.append_cancel_left h2
    replace h2 := List.append_cancel_left h2
    replace h2 := List.append_cancel_left h2
    replace h2 := List.append_cancel_left h2
    exact List.append_cancel_right h2
  · intro h
    simp [chatCacheKey, Jval.stringify, Jval.stringifyFields, h]

/-- C3 evaluation: the transcription cache key is independent of the
attachment bytes.  The SHA-256 digest is an `ArrayBuffer`, and
`JSON.stringify` renders an `ArrayBuffer` as the empty object, so two
transcription requests with identical metadata but different file bytes
receive the same cache key (and the second is served from the first's cache
entry instead of being dispatched independently). -/
theorem C3_transcription_key_ignores_bytes (digest : List Nat → List Nat)
    (provider : String) (data : Jval) (b₁ b₂ : List Nat) :
    transcriptionCacheKey digest provider data b₁ =
      transcriptionCacheKey digest provider data b₂ := rfl

/-! ## Helper lemmas about the dispatch branch -/

theorem catchResponses_no_hit (env : Env) (e : String) :
    ((catchResponses env e).all fun r => !r.isHit) = true := by
  unfold catchResponses
  cases env.jsonParse e <;> rfl

theorem catchResponses_length (env : Env) (e : String) :
    (catchResponses env e).length ≤ 1 := by
  unfold catchResponses
  cases env.jsonParse e <;> simp

theorem chatDispatch_cacheRead (cfg : Config) (env : Env) (req : ChatReq)
    (provider : String) (pc : ProviderConf) (key : String)
    (cr : Option String) :
    (chatDispatch cfg env req provider pc key cr).cacheRead = cr := by
  unfold chatDispatch
  cases pc.type <;> simp only
  case openai =>
    split
    · rfl
    · split
      · rfl
      · split <;> rfl
  case azureOpenAI =>
    split
    · rfl
    · split
      · rfl
      · split <;> rfl

theorem chatDispatch_no_hit (cfg : Config) (env : Env) (req : ChatReq)
    (provider : String) (pc : ProviderConf) (key : String)
    (cr : Option String) :
    ((chatDispatch cfg env req provider pc key cr).responses.all
      (fun r => !r.isHit)) = true := by
  unfold chatDispatch
  cases pc.type <;> simp only
  case openai =>
    split
    · rfl
    · split
      · exact catchResponses_no_hit env _
      · split
        · exact catchResponses_no_hit env _
        · rfl
  case azureOpenAI =>
    split
    · rfl
    · split
      · exact catchResponses_no_hit env _
      · split
        · exact catchResponses_no_hit env _
        · rfl
  all_goals rfl

theorem chatDispatch_responses_length (cfg : Config) (env : Env)
    (req : ChatReq) (provider : String) (pc : ProviderConf) (key : String)
    (cr : Option String) :
    (chatDispatch cfg env req provider pc key cr).responses.length ≤ 1 := by
  unfold chatDispatch
  cases pc.type <;> simp only
  case openai =>
    split
    · simp
    · split
      · exact catchResponses_length env _
      · split
        · exact catchResponses_length env _
        · simp
  case azureOpenAI =>
    split
    · simp
    · split
      · exact catchResponses_length env _
      · split
        · exact catchResponses_length env _
        · simp
  all_goals simp

theorem chatDispatch_upstream_called (cfg : Config) (env : Env) (req : ChatReq)
    (provider : String) (pc : ProviderConf) (key : String) (cr : Option String)
    (hs : fieldTruthy req.data "stream" = false)
    (hp : (parsedArgs env pc req.data).isSome = true) :
    (chatDispatch cfg env req provider pc key cr).upstream.isSome = true := by
  unfold chatDispatch
  unfold parsedArgs at hp
  cases hpt : pc.type
  case openai =>
    rw [hpt] at hp
    dsimp only at hp ⊢
    split
    · rename_i hstream; simp [hs] at hstream
    · split
      · rename_i e hparse; rw [hparse] at hp; simp [Except.toOption] at hp
      · split <;> rfl
  case azureOpenAI =>
    rw [hpt] at hp
    dsimp only at hp ⊢
    split
    · rename_i hstream; simp [hs] at hstream
    · split
      · rename_i e hparse; rw [hparse] at hp; simp [Except.toOption] at hp
      · split <;> rfl
  case anthropic => rw [hpt] at hp; simp at hp
  case replicate => rw [hpt] at hp; simp at hp
  case cohere => rw [hpt] at hp; simp at hp

theorem chatDispatch_write_or_none (cfg : Config) (env : Env) (req : ChatReq)
    (provider : String) (pc : ProviderConf) (key : String)
    (cr : Option String) :
    (chatDispatch cfg env req provider pc key cr).cacheWrite = none ∨
    ∃ resp,
      (chatDispatch cfg env req provider pc key cr).cacheWrite =
        some (key, Jval.stringify resp) ∧
      upstreamOk (chatDispatch cfg env req provider pc key cr).upstream =
        some resp := by
  unfold chatDispatch
  cases pc.type
  case openai =>
    dsimp only
    split
    · left; rfl
    · split
      · left; rfl
      · split
        · left; rfl
        · split
          · right; exact ⟨_, rfl, rfl⟩
          · left; rfl
  case azureOpenAI =>
    dsimp only
    split
    · left; rfl
    · split
      · left; rfl
      · split
        · left; rfl
        · split
          · right; exact ⟨_, rfl, rfl⟩
          · left; rfl
  case anthropic => left; rfl
  case replicate => left; rfl
  case cohere => left; rfl

/-! ## Handler-level lemmas -/

theorem chatCompletionHandler_write_or_none (cfg : Config) (env : Env)
    (req : ChatReq) :
    (chatCompletionHandler cfg env req).cacheWrite = none ∨
    ∃ provider pc resp,
      resolveProvider cfg req.data req.headerProvider = some (provider, pc) ∧
      (chatCompletionHandler cfg env req).cacheWrite =
        some (chatCacheKey provider req.data, Jval.stringify resp) ∧
      upstreamOk (chatCompletionHandler cfg env req).upstream = some resp := by
  unfold chatCompletionHandler
  cases hr : resolveProvider cfg req.data req.headerProvider with
  | none => left; rfl
  | some ppc =>
      obtain ⟨provider, pc⟩ := ppc
      dsimp only
      split
      · split
        · left; rfl
        · split
          · rcases chatDispatch_write_or_none cfg env req provider pc
              (chatCacheKey provider req.data)
              (some (chatCacheKey provider req.data)) with h | ⟨resp, hw, hu⟩
            · left; exact h
            · right; exact ⟨provider, pc, resp, rfl, hw, hu⟩
          · split
            · left; rfl
            · left; rfl
        · rcases chatDispatch_write_or_none cfg env req provider pc
            (chatCacheKey provider req.data)
            (some (chatCacheKey provider req.data)) with h | ⟨resp, hw, hu⟩
          · left; exact h
          · right; exact ⟨provider, pc, resp, rfl, hw, hu⟩
      · rcases chatDispatch_write_or_none cfg env req provider pc
          (chatCacheKey provider req.data) none with h | ⟨resp, hw, hu⟩
        · left; exact h
        · right; exact ⟨provider, pc, resp, rfl, hw, hu⟩

/-! ## Claims about the dispatcher -/

/-- C7: a request naming a provider absent from the configuration fails
immediately with the invalid-provider error envelope and performs no cache
read, no cache write, and no provider-adapter invocation. -/
theorem C7_unknown_provider_no_io (cfg : Config) (env : Env) (req : ChatReq)
    (h : resolveProvider cfg req.data req.headerProvider = none) :
    chatCompletionHandler cfg env req =
      { responses := [.err 400 "Invalid provider."], cacheRead := none,
        upstream := none, cacheWrite := none } := by
  unfold chatCompletionHandler
  rw [h]

/-- C7 witness: the unknown-provider theorem applied to a concrete request
against an empty provider table. -/
theorem C7_unknown_provider_no_io_witness :
    resolveProvider cfgNoProviders reqUnknown.data reqUnknown.headerProvider =
      none ∧
    chatCompletionHandler cfgNoProviders envBase reqUnknown =
      { responses := [.err 400 "Invalid provider."], cacheRead := none,
        upstream := none, cacheWrite := none } :=
  ⟨rfl, C7_unknown_provider_no_io cfgNoProviders envBase reqUnknown rfl⟩

/-- C1 counterexample: the upstream call answers HTTP 500 — not a successful
call — yet its JSON error body is stored in the cache under the request's
fingerprint, because the adapter never inspects the response status. -/
theorem C1_counterexample_unverified_status_cached :
    HttpResp.respOk ⟨500, .ok errBody⟩ = false ∧
    (chatCompletionHandler cfgOpenai envUpstream500 reqChatP).cacheWrite =
      some (chatCacheKey "p" reqChatP.data, Jval.stringify errBody) :=
  ⟨rfl, rfl⟩

/-- C1 amended: a cache entry is written under the request's fingerprint only
when the provider-adapter call returned without throwing (the fetch resolved
and the body parsed as JSON) — in particular a thrown adapter failure stores
nothing — but the upstream HTTP status is never verified, so an upstream
error response whose body parses as JSON is cached. -/
theorem C1_amended_write_requires_adapter_return (cfg : Config) (env : Env)
    (req : ChatReq) (k v : String)
    (h : (chatCompletionHandler cfg env req).cacheWrite = some (k, v)) :
    ∃ provider pc resp,
      resolveProvider cfg req.data req.headerProvider = some (provider, pc) ∧
      k = chatCacheKey provider req.data ∧
      v = Jval.stringify resp ∧
      upstreamOk (chatCompletionHandler cfg env req).upstream = some resp := by
  rcases chatCompletionHandler_write_or_none cfg env req with
    h0 | ⟨provider, pc, resp, hr, hw, hu⟩
  · rw [h0] at h; exact absurd h (by simp)
  · rw [h] at hw
    obtain ⟨hk, hv⟩ := Prod.mk.injEq .. ▸ Option.some.inj hw
    exact ⟨provider, pc, resp, hr, hk, hv, hu⟩

/-- C1 witness: a successful upstream call writes exactly the fingerprint
entry, exhibited on a concrete request. -/
theorem C1_amended_write_requires_adapter_return_witness :
    (chatCompletionHandler cfgOpenai envBase reqChatP).cacheWrite =
      some (chatCacheKey "p" reqChatP.data, Jval.stringify (.jstr "ok")) ∧
    ∃ provider pc resp,
      resolveProvider cfgOpenai reqChatP.data reqChatP.headerProvider =
        some (provider, pc) ∧
      chatCacheKey "p" reqChatP.data = chatCacheKey provider reqChatP.data ∧
      Jval.stringify (.jstr "ok") = Jval.stringify resp ∧
      upstreamOk (chatCompletionHandler cfgOpenai envBase reqChatP).upstream =
        some resp :=
  ⟨rfl, C1_amended_write_requires_adapter_return cfgOpenai envBase reqChatP
    (chatCacheKey "p" reqChatP.data) (Jval.stringify (.jstr "ok")) rfl⟩

/-- C4: a request carrying `Cache-Control: no-cache` never receives a
cache-hit response and never reads the cache, and — whenever it reaches an
implemented provider branch with a valid payload — always invokes the
upstream provider adapter, whatever entry the cache may hold. -/
theorem C4_nocache_always_upstream (cfg : Config) (env : Env) (req : ChatReq)
    (provider : String) (pc : ProviderConf)
    (hr : resolveProvider cfg req.data req.headerProvider =
      some (provider, pc))
    (hnc : req.noCacheHeader = true)
    (hs : fieldTruthy req.data "stream" = false)
    (hp : (parsedArgs env pc req.data).isSome = true) :
    ((chatCompletionHandler cfg env req).responses.all
      (fun r => !r.isHit)) = true ∧
    (chatCompletionHandler cfg env req).upstream.isSome = true ∧
    (chatCompletionHandler cfg env req).cacheRead = none := by
  unfold chatCompletionHandler
  rw [hr]
  dsimp only
  have hcond : (cfg.cacheEnabled && !req.noCacheHeader) = false := by
    simp [hnc]
  simp only [hcond, Bool.false_eq_true, if_false]
  exact ⟨chatDispatch_no_hit cfg env req provider pc
      (chatCacheKey provider req.data) none,
    chatDispatch_upstream_called cfg env req provider pc
      (chatCacheKey provider req.data) none hs hp,
    chatDispatch_cacheRead cfg env req provider pc
      (chatCacheKey provider req.data) none⟩

/-- C4 witness: the no-cache theorem applied to a concrete request. -/
theorem C4_nocache_always_upstream_witness :
    ((chatCompletionHandler cfgOpenai envBase reqChatPNoCache).responses.all
      (fun r => !r.isHit)) = true ∧
    (chatCompletionHandler cfgOpenai envBase reqChatPNoCache).upstream.isSome =
      true ∧
    (chatCompletionHandler cfgOpenai envBase reqChatPNoCache).cacheRead =
      none :=
  C4_nocache_always_upstream cfgOpenai envBase reqChatPNoCache "p" pcP
    rfl rfl rfl rfl

/-- C6 counterexample: a failing cache-backend `get` is not treated as a
cache miss — the upstream adapter is never invoked and nothing is cached —
and, because the backend's error message (`redis down`) is not valid JSON,
the catch's own `JSON.parse(e.message)` throws, so the caller receives no
response at all: the enclosing request fails instead of degrading to a
miss. -/
theorem C6_counterexample_get_failure_not_a_miss :
    (chatCompletionHandler cfgOpenai envGetThrows reqChatP).upstream = none ∧
    (chatCompletionHandler cfgOpenai envGetThrows reqChatP).responses = [] ∧
    (chatCompletionHandler cfgOpenai envGetThrows reqChatP).cacheWrite =
      none :=
  ⟨rfl, rfl, rfl⟩

/-- C6 amended: a failing cache `get` is not absorbed locally: the rejection
propagates to the handler's catch-all, upstream is never invoked and nothing
is written, and the caller receives the 500 envelope only when the error's
message happens to parse as JSON (the catch rebuilds it with
`JSON.parse(e.message)`) — otherwise, the typical case for backend failure
messages, no response is sent at all.  (A failing cache `set` cannot affect
the response: the write is issued after the response is sent and is never
awaited.) -/
theorem C6_amended_get_failure_not_absorbed (cfg : Config) (env : Env)
    (req : ChatReq) (provider : String) (pc : ProviderConf) (e : String)
    (hr : resolveProvider cfg req.data req.headerProvider =
      some (provider, pc))
    (hc : cfg.cacheEnabled = true) (hnc : req.noCacheHeader = false)
    (hg : env.cacheGet (chatCacheKey provider req.data) = .error e) :
    chatCompletionHandler cfg env req =
      { responses := catchResponses env e,
        cacheRead := some (chatCacheKey provider req.data),
        upstream := none, cacheWrite := none } := by
  unfold chatCompletionHandler
  rw [hr]
  dsimp only
  have hcond : (cfg.cacheEnabled && !req.noCacheHeader) = true := by
    simp [hc, hnc]
  simp only [hcond, if_true]
  rw [hg]

/-- C6 witness: the amended theorem applied to a concrete request and a
throwing backend. -/
theorem C6_amended_get_failure_not_absorbed_witness :
    chatCompletionHandler cfgOpenai envGetThrows reqChatP =
      { responses := catchResponses envGetThrows "redis down",
        cacheRead := some (chatCacheKey "p" reqChatP.data),
        upstream := none, cacheWrite := none } :=
  C6_amended_get_failure_not_absorbed cfgOpenai envGetThrows reqChatP "p" pcP
    "redis down" rfl rfl rfl rfl

theorem chatDispatch_azure_upstream (cfg : Config) (env : Env) (req : ChatReq)
    (provider : String) (pc : ProviderConf) (key : String) (cr : Option String)
    (args : Jval)
    (hty : pc.type = .azureOpenAI)
    (hd : orElseTruthy req.headerDeployment (getStr req.data "deploymentId") =
      none)
    (hs : fieldTruthy req.data "stream" = false)
    (hparse : env.parseChatAzure req.data = .ok args) :
    (chatDispatch cfg env req provider pc key cr).upstream =
      some (.azureChat none (azureChatUrl (pc.url.getD "undefined") none)
        (azoaiChatCompletion (env.azureFetch
          (azureChatUrl (pc.url.getD "undefined") none) args))) := by
  unfold chatDispatch
  rw [hty]
  dsimp only
  rw [hd]
  simp only [hs, Bool.false_eq_true, if_false]
  rw [hparse]
  dsimp only
  cases hres : azoaiChatCompletion (env.azureFetch
      (azureChatUrl (pc.url.getD "undefined") none) args) <;> rfl

/-- C8 counterexample: a request to an Azure-type provider with no resolvable
deployment id is not rejected before I/O — the cache is read and the adapter
is invoked, fetching a URL whose deployment segment is the literal string
`undefined`. -/
theorem C8_counterexample_missing_deployment_dispatches :
    orElseTruthy reqChatAz.headerDeployment
      (getStr reqChatAz.data "deploymentId") = none ∧
    (chatCompletionHandler cfgAzure envBase reqChatAz).cacheRead =
      some (chatCacheKey "az" reqChatAz.data) ∧
    (chatCompletionHandler cfgAzure envBase reqChatAz).upstream =
      some (.azureChat none
        "https://example.azure.com/openai/deployments/undefined/chat/completions?api-version=2023-08-01-preview"
        (.ok (.jstr "ok"))) :=
  ⟨rfl, rfl, rfl⟩

/-- C8 amended: the handler performs no deployment-id validation at all: a
request to an Azure-type provider with no deployment id in header or payload
proceeds through the normal path (cache consulted unless bypassed) and
invokes the adapter with an undefined deployment id, so the fetched URL
contains the literal path segment `undefined`; no configuration error is
raised before I/O. -/
theorem C8_amended_no_deployment_validation (cfg : Config) (env : Env)
    (req : ChatReq) (provider : String) (pc : ProviderConf) (args : Jval)
    (hr : resolveProvider cfg req.data req.headerProvider =
      some (provider, pc))
    (hty : pc.type = .azureOpenAI)
    (hd : orElseTruthy req.headerDeployment (getStr req.data "deploymentId") =
      none)
    (hs : fieldTruthy req.data "stream" = false)
    (hparse : env.parseChatAzure req.data = .ok args)
    (hmiss : (cfg.cacheEnabled && !req.noCacheHeader) = false ∨
      env.cacheGet (chatCacheKey provider req.data) = .ok none) :
    (chatCompletionHandler cfg env req).upstream =
      some (.azureChat none (azureChatUrl (pc.url.getD "undefined") none)
        (azoaiChatCompletion (env.azureFetch
          (azureChatUrl (pc.url.getD "undefined") none) args))) ∧
    ∀ u, azureChatUrl u none =
      u ++ "/openai/deployments/" ++ "undefined" ++
        "/chat/completions?api-version=2023-08-01-preview" := by
  refine ⟨?_, fun u => rfl⟩
  unfold chatCompletionHandler
  rw [hr]
  dsimp only
  rcases hmiss with hm | hm
  · simp only [hm, Bool.false_eq_true, if_false]
    exact chatDispatch_azure_upstream cfg env req provider pc
      (chatCacheKey provider req.data) none args hty hd hs hparse
  · by_cases hce : (cfg.cacheEnabled && !req.noCacheHeader) = true
    · simp only [hce, if_true]
      rw [hm]
      exact chatDispatch_azure_upstream cfg env req provider pc
        (chatCacheKey provider req.data) (some (chatCacheKey provider req.data))
        args hty hd hs hparse
    · have hcf : (cfg.cacheEnabled && !req.noCacheHeader) = false := by
        simpa using hce
      simp only [hcf, Bool.false_eq_true, if_false]
      exact chatDispatch_azure_upstream cfg env req provider pc
        (chatCacheKey provider req.data) none args hty hd hs hparse

/-- C8 witness: the amended theorem applied to a concrete Azure request with
no deployment id. -/
theorem C8_amended_no_deployment_validation_witness :
    (chatCompletionHandler cfgAzure envBase reqChatAz).upstream =
      some (.azureChat none (azureChatUrl (pcAz.url.getD "undefined") none)
        (azoaiChatCompletion (envBase.azureFetch
          (azureChatUrl (pcAz.url.getD "undefined") none) reqChatAz.data))) ∧
    ∀ u, azureChatUrl u none =
      u ++ "/openai/deployments/" ++ "undefined" ++
        "/chat/completions?api-version=2023-08-01-preview" :=
  C8_amended_no_deployment_validation cfgAzure envBase reqChatAz "az" pcAz
    reqChatAz.data rfl rfl rfl rfl rfl (Or.inr rfl)

/-- C9 counterexample: an embeddings request naming a configured OpenAI-type
provider terminates with neither a success body nor an error envelope — the
handler returns without sending any response at all. -/
theorem C9_counterexample_embeddings_no_response :
    resolveProvider cfgOpenai reqEmb.data reqEmb.headerProvider =
      some ("p", pcP) ∧
    (embeddingsHandler cfgOpenai envBase reqEmb).responses = [] :=
  ⟨rfl, rfl⟩

/-- C9 amended: every dispatched request terminates with at most one outcome
— a success body or an error envelope, never both — but unimplemented
branches (embeddings on an OpenAI-type provider, streaming chat, provider
types without a branch) send no response at all, so "exactly one" fails. -/
theorem C9_amended_at_most_one_outcome (cfg : Config) (env : Env)
    (req₁ : ChatReq) (req₂ : EmbReq) :
    (chatCompletionHandler cfg env req₁).responses.length ≤ 1 ∧
    (embeddingsHandler cfg env req₂).responses.length ≤ 1 := by
  constructor
  · unfold chatCompletionHandler
    cases resolveProvider cfg req₁.data req₁.headerProvider with
    | none => simp
    | some ppc =>
        obtain ⟨provider, pc⟩ := ppc
        dsimp only
        split
        · split
          · exact catchResponses_length env _
          · split
            · exact chatDispatch_responses_length cfg env req₁ provider pc _ _
            · split <;> simp
          · exact chatDispatch_responses_length cfg env req₁ provider pc _ _
        · exact chatDispatch_responses_length cfg env req₁ provider pc _ _
  · unfold embeddingsHandler
    cases resolveProvider cfg req₂.data req₂.headerProvider with
    | none => simp
    | some ppc =>
        obtain ⟨provider, pc⟩ := ppc
        dsimp only
        cases pc.type
        case openai => simp
        case azureOpenAI =>
          dsimp only
          split
          · exact catchResponses_length env _
          · split
            · exact catchResponses_length env _
            · simp
        case anthropic => simp
        case replicate => simp
        case cohere => simp

end Aigate
